import Mathlib

/-!
Verification of the code-generation core of the RUST-APPS repository:
the `AIModel` engine (src/src/ai.rs) and the web/WebSocket handlers
built on it (src/src/web.rs).

Modelling conventions:
* Rust `String`/`&str` become Lean `String`; `usize`/`u64` become `Nat`.
* `str::to_lowercase` is modelled character-wise (`rustToLowercase`); the
  engine's match patterns are ASCII, where the two agree.
* Wall-clock measurement (`Instant::now() ... elapsed()`) is external
  nondeterminism: the measured duration enters as an explicit
  `elapsed_ms` parameter.
* Rust functions returning `Result` whose every path is `Ok` (load,
  generate) are modelled as total functions; `AIModel::new`, whose
  contract is "an engine or a construction error", keeps its `Except`
  shape to make "never fails" a provable statement.
* The async WebSocket receive loop becomes a fold over an explicit list
  of inbound events; each `tx.send(...)` becomes an element of the
  returned frame list.  A second loop (`ws_receive_loop_sends`) also
  records, per attempted send, whether the transport delivered it,
  via an oracle `sendOk : Nat → Bool`; faithful to the source's
  discarded send results, the loop's control flow never consults it.
-/

/-- Rust `str::to_lowercase`, character-wise (ASCII-faithful). -/
def rustToLowercase (s : String) : String := ⟨s.data.map Char.toLower⟩

/-- Substring occurrence on character lists: some drop-prefix of `l`
starts with `pat`. -/
def rustContainsData (pat l : List Char) : Bool :=
  (List.range (l.length + 1)).any (fun i => decide ((l.drop i).take pat.length = pat))

/-- Rust `str::contains(pat)` for a string pattern. -/
def rustContains (s pat : String) : Bool := rustContainsData pat.data s.data

/-- Embeds `enum AIModelType` (src/src/ai.rs lines 8-14). -/
inductive AIModelType where
  | Phi3Mini
  | Phi3Small
  | Phi3Medium
  | Custom (name : String)
deriving DecidableEq

/-- Embeds `struct AIResponse` (src/src/ai.rs lines 16-22). -/
structure AIResponse where
  content : String
  tokens : Nat
  time_ms : Nat
  model : String
deriving DecidableEq

/-- Embeds `struct AIModel` (src/src/ai.rs lines 24-30). -/
structure AIModel where
  model_type : AIModelType
  model_path : Option String
  context_size : Nat
  loaded : Bool
deriving DecidableEq

/-- Embeds `impl ToString for AIModelType` (src/src/ai.rs lines 92-101). -/
def AIModelType.toString : AIModelType → String
  | AIModelType.Phi3Mini => "phi-3-mini"
  | AIModelType.Phi3Small => "phi-3-small"
  | AIModelType.Phi3Medium => "phi-3-medium"
  | AIModelType.Custom name => name

/-- Embeds `AIModel::new` (src/src/ai.rs lines 33-47).  The Rust body
matches on `model_name.to_lowercase().as_str()`; the fallback arm binds
that lowercased string and stores it in `Custom`.  Every path returns
`Ok`, kept as `Except` to state the construction contract. -/
def AIModel.new (model_name : String) : Except String AIModel :=
  let lower := rustToLowercase model_name
  let model_type :=
    if lower = "phi-3-mini" then AIModelType.Phi3Mini
    else if lower = "phi-3-small" then AIModelType.Phi3Small
    else if lower = "phi-3-medium" then AIModelType.Phi3Medium
    else AIModelType.Custom lower
  Except.ok
    { model_type := model_type, model_path := none, context_size := 4096, loaded := false }

/-- Which path `AIModel::load` took: the fast already-loaded return, or
the load step proper (log + 200 ms simulated sleep + set the flag). -/
inductive LoadStep where
  | alreadyLoaded
  | performedLoad
deriving DecidableEq

/-- Embeds `AIModel::load` (src/src/ai.rs lines 49-57).  Both paths
return `Ok(())` in the source; the `LoadStep` component records whether
the load step (sleep + flag assignment) was executed. -/
def AIModel.load (m : AIModel) : AIModel × LoadStep :=
  if m.loaded then (m, LoadStep.alreadyLoaded)
  else ({ m with loaded := true }, LoadStep.performedLoad)

/-- Embeds `AIModel::generate_generic_response` (src/src/ai.rs lines 87-89). -/
def AIModel.generate_generic_response (_m : AIModel) (prompt : String) : String :=
  "// Generated code based on prompt: " ++ prompt

/-- Embeds `AIModel::generate_phi3_response` (src/src/ai.rs lines 77-85):
checks "login" before "card", both against the lowercased prompt. -/
def AIModel.generate_phi3_response (m : AIModel) (prompt : String) : String :=
  if rustContains (rustToLowercase prompt) "login" then
    "// Generated login component placeholder"
  else if rustContains (rustToLowercase prompt) "card" then
    "// Generated card component placeholder"
  else
    m.generate_generic_response prompt

/-- Embeds `AIModel::generate` (src/src/ai.rs lines 59-75): first awaits
`load`, then classifies by model type, and returns content,
`max_tokens.min(500)` tokens, the measured elapsed time, and the model
identifier.  Every path of the Rust body returns `Ok`. -/
def AIModel.generate (m : AIModel) (prompt : String) (max_tokens elapsed_ms : Nat) :
    AIModel × AIResponse :=
  let m2 := m.load.1
  let response :=
    match m2.model_type with
    | AIModelType.Phi3Mini | AIModelType.Phi3Small | AIModelType.Phi3Medium =>
        m2.generate_phi3_response prompt
    | AIModelType.Custom _ => m2.generate_generic_response prompt
  (m2,
   { content := response, tokens := min max_tokens 500, time_ms := elapsed_ms,
     model := m2.model_type.toString })

/-- Embeds `struct GenerateRequest` (src/src/web.rs lines 18-23). -/
structure GenerateRequest where
  prompt : String
  framework : String
  model : Option String

/-- Embeds `struct GenerateResponse` (src/src/web.rs lines 25-30). -/
structure GenerateResponse where
  code : String
  tokens : Nat
  time_ms : Nat
deriving DecidableEq

/-- Embeds `handle_generate` (src/src/web.rs lines 98-123): with an
engine present, calls `generate(prompt, 2000)` under the write lock and
repacks the fields; with the engine slot empty, builds the fixed
placeholder response with zero tokens and time.  Both paths of the
source construct an `Ok(json)` reply. -/
def handle_generate (request : GenerateRequest) (engine : Option AIModel) (elapsed_ms : Nat) :
    GenerateResponse × Option AIModel :=
  match engine with
  | some ai_model =>
    let r := ai_model.generate request.prompt 2000 elapsed_ms
    ({ code := r.2.content, tokens := r.2.tokens, time_ms := r.2.time_ms }, some r.1)
  | none =>
    ({ code := "// AI not enabled\n// Request: " ++ request.prompt ++
               "\n// Framework: " ++ request.framework,
       tokens := 0, time_ms := 0 }, none)

/-- Minimal model of a parsed `serde_json::Value`. -/
inductive Json where
  | null
  | bool (b : Bool)
  | num (n : Int)
  | str (s : String)
  | arr (xs : List Json)
  | obj (fields : List (String × Json))

/-- `serde_json::Value::get(key)`: field lookup on objects, `None` otherwise. -/
def Json.get (j : Json) (key : String) : Option Json :=
  match j with
  | Json.obj fields => (fields.find? (fun kv => kv.1 == key)).map (fun kv => kv.2)
  | _ => none

/-- `serde_json::Value::as_str`. -/
def Json.asStr : Json → Option String
  | Json.str s => some s
  | _ => none

/-- Outbound WebSocket frames, one constructor per `json!` shape built
in src/src/web.rs. -/
inductive WsFrame where
  | connected (client_id message : String)
  | generating (message : String)
  | generated (code : String) (tokens time_ms : Nat) (model : String)
  | error (message : String)
deriving DecidableEq

/-- Embeds `handle_ws_generate` (src/src/web.rs lines 209-246): sends
the `generating` frame, then under the engine lock either the
`generated` frame from `generate(prompt, 2000)` or the not-available
`error` frame.  (`framework` is accepted but unused, as in the source;
the generate-failed arm is unreachable because `generate` always
returns `Ok`.) -/
def handle_ws_generate (prompt _framework : String) (engine : Option AIModel)
    (elapsed_ms : Nat) : List WsFrame × Option AIModel :=
  match engine with
  | some ai_model =>
    let r := ai_model.generate prompt 2000 elapsed_ms
    ([WsFrame.generating "AI is generating code...",
      WsFrame.generated r.2.content r.2.tokens r.2.time_ms r.2.model], some r.1)
  | none =>
    ([WsFrame.generating "AI is generating code...",
      WsFrame.error "AI model not available"], none)

/-- Embeds `handle_websocket_message` (src/src/web.rs lines 164-207),
taking the outcome of `serde_json::from_str` (an external parser) as
input.  A missing or non-string `type`, or a `generate` without string
`prompt` and `framework`, is silently ignored, as in the source. -/
def handle_websocket_message (parsed : Except String Json) (engine : Option AIModel)
    (elapsed_ms : Nat) : List WsFrame × Option AIModel :=
  match parsed with
  | Except.ok data =>
    match (data.get "type").bind Json.asStr with
    | some msg_type =>
      if msg_type = "generate" then
        match (data.get "prompt").bind Json.asStr, (data.get "framework").bind Json.asStr with
        | some prompt, some framework => handle_ws_generate prompt framework engine elapsed_ms
        | _, _ => ([], engine)
      else ([WsFrame.error ("Unknown message type: " ++ msg_type)], engine)
    | none => ([], engine)
  | Except.error e => ([WsFrame.error ("Invalid JSON: " ++ e)], engine)

/-- One inbound event of a session's receive loop: a text frame with
its parse outcome (and the elapsed time an ensuing generate call would
measure), a non-text frame (skipped by `msg.to_str()` failing), or a
receive-side transport error (the `Err` arm, which breaks the loop). -/
inductive WsEvent where
  | frame (parsed : Except String Json) (elapsed_ms : Nat)
  | nonText
  | transportFailure (e : String)

/-- Embeds the receive loop of `handle_websocket` (src/src/web.rs lines
147-159): dispatch each text frame, skip non-text frames, break on a
receive error.  Returns all frames passed to `tx.send` and the final
engine state. -/
def ws_receive_loop (events : List WsEvent) (engine : Option AIModel) :
    List WsFrame × Option AIModel :=
  match events with
  | [] => ([], engine)
  | WsEvent.frame parsed elapsed_ms :: rest =>
    let r := handle_websocket_message parsed engine elapsed_ms
    let r2 := ws_receive_loop rest r.2
    (r.1 ++ r2.1, r2.2)
  | WsEvent.nonText :: rest => ws_receive_loop rest engine
  | WsEvent.transportFailure _ :: _ => ([], engine)

/-- Embeds `handle_websocket` (src/src/web.rs lines 130-162): the
`connected` greeting frame followed by the receive loop. -/
def handle_websocket (client_id : String) (events : List WsEvent)
    (engine : Option AIModel) : List WsFrame × Option AIModel :=
  let r := ws_receive_loop events engine
  (WsFrame.connected client_id "Connected to Nexus Studio AI" :: r.1, r.2)

/-- Tags consecutive frames with the send oracle's verdicts starting at
attempt index k. -/
def tagSends (sendOk : Nat → Bool) (k : Nat) : List WsFrame → List (WsFrame × Bool)
  | [] => []
  | f :: fs => (f, sendOk k) :: tagSends sendOk (k + 1) fs

/-- The receive loop with per-send delivery outcomes made visible: each
attempted frame is paired with whether the k-th `tx.send` succeeded.
Faithful to the source's `let _ = tx.send(...)`, the loop's control flow
and state never consult the outcome; only a receive error breaks. -/
def ws_receive_loop_sends (sendOk : Nat → Bool) (events : List WsEvent)
    (engine : Option AIModel) (k : Nat) : List (WsFrame × Bool) × Option AIModel :=
  match events with
  | [] => ([], engine)
  | WsEvent.frame parsed elapsed_ms :: rest =>
    let r := handle_websocket_message parsed engine elapsed_ms
    let r2 := ws_receive_loop_sends sendOk rest r.2 (k + r.1.length)
    (tagSends sendOk k r.1 ++ r2.1, r2.2)
  | WsEvent.nonText :: rest => ws_receive_loop_sends sendOk rest engine k
  | WsEvent.transportFailure _ :: _ => ([], engine)

/-- The C4 scenario's inbound message: a generate request for a login
form, as parsed JSON. -/
def login_generate_msg : Json :=
  Json.obj [("type", Json.str "generate"), ("prompt", Json.str "build a login form"),
            ("framework", Json.str "react")]

/-- An unrecognized-type inbound message, as parsed JSON. -/
def ping_msg : Json := Json.obj [("type", Json.str "ping")]

/-- A freshly constructed phi-3-mini engine. -/
def phi3_test_engine : AIModel :=
  { model_type := AIModelType.Phi3Mini, model_path := none, context_size := 4096,
    loaded := false }

/-- A freshly constructed custom-model engine. -/
def custom_test_engine : AIModel :=
  { model_type := AIModelType.Custom "my-model", model_path := none, context_size := 4096,
    loaded := false }

/-- String concatenation acts as list concatenation on the character data. -/
theorem string_data_append (a b : String) : (a ++ b).data = a.data ++ b.data := by
  cases a; cases b; rfl

/-- A pattern placed between two lists is found by the substring scan. -/
theorem rustContainsData_append (pre sub post : List Char) :
    rustContainsData sub (pre ++ sub ++ post) = true := by
  unfold rustContainsData
  rw [List.any_eq_true]
  refine ⟨pre.length, ?_, ?_⟩
  · simp [List.mem_range, List.length_append]
    omega
  · rw [List.append_assoc, List.drop_left, List.take_left]
    simp

/-- A string whose data decomposes around the pattern's data contains the pattern. -/
theorem rustContains_of_data (s sub : String) (pre post : List Char)
    (h : s.data = pre ++ sub.data ++ post) : rustContains s sub = true := by
  unfold rustContains
  rw [h]
  exact rustContainsData_append pre sub.data post

/-- `load` never changes the model type. -/
theorem load_model_type (m : AIModel) : (m.load.1).model_type = m.model_type := by
  unfold AIModel.load
  split <;> rfl

/-- `load` always leaves the engine loaded. -/
theorem load_loaded (m : AIModel) : (m.load.1).loaded = true := by
  unfold AIModel.load
  split <;> simp_all

/-- A second `load` is the no-op fast path. -/
theorem load_load (m : AIModel) : (m.load.1).load = (m.load.1, LoadStep.alreadyLoaded) := by
  unfold AIModel.load
  by_cases h : m.loaded <;> simp [h]

/-- The login prompt of the C4 scenario matches the first keyword test. -/
theorem login_prompt_contains :
    rustContains (rustToLowercase "build a login form") "login" = true := by decide

/-- The hard-coded 2000-token budget caps to 500. -/
theorem min_2000_500 : min 2000 500 = 500 := rfl

/-- Dispatching the C4 message reduces to the generate path with its two
string fields. -/
theorem login_msg_dispatch (engine : Option AIModel) (elapsed_ms : Nat) :
    handle_websocket_message (Except.ok login_generate_msg) engine elapsed_ms =
      handle_ws_generate "build a login form" "react" engine elapsed_ms := rfl

/-- Dropping the delivery verdicts recovers the attempted frames. -/
theorem tagSends_map_fst (sendOk : Nat → Bool) (k : Nat) (fs : List WsFrame) :
    (tagSends sendOk k fs).map Prod.fst = fs := by
  induction fs generalizing k with
  | nil => rfl
  | cons f fs ih => simp [tagSends, ih]

/-- Claim C1: for every prompt and token budget, a successful
`generate(p, n)` returns a token count equal to `min(n, 500)`,
regardless of the prompt's content and of the engine's model type. -/
theorem generate_tokens_capped (m : AIModel) (prompt : String) (max_tokens elapsed_ms : Nat) :
    ((m.generate prompt max_tokens elapsed_ms).2).tokens = min max_tokens 500 := rfl

/-- Claim C2, counterexample: the input "X" is none of the recognized
model names, construction succeeds, but the resulting identity is
`Custom "x"` — the lowercased input — not the original string verbatim. -/
theorem new_verbatim_counterexample :
    (("X" : String) ≠ "phi-3-mini" ∧ ("X" : String) ≠ "phi-3-small" ∧
     ("X" : String) ≠ "phi-3-medium") ∧
    AIModel.new "X" =
      Except.ok { model_type := AIModelType.Custom "x", model_path := none,
                  context_size := 4096, loaded := false } ∧
    AIModelType.Custom "x" ≠ AIModelType.Custom "X" :=
  ⟨by decide, rfl, by decide⟩

/-- Claim C2, amended: for every model-name string, engine construction
succeeds; and for every string whose lowercasing is not one of the
recognized names, the engine has a custom identity carrying the
lowercased input string (verbatim exactly when the input is already
lowercase). -/
theorem new_unrecognized_lowercase :
    (∀ name : String, ∃ m : AIModel, AIModel.new name = Except.ok m) ∧
    (∀ name : String,
      rustToLowercase name ≠ "phi-3-mini" →
      rustToLowercase name ≠ "phi-3-small" →
      rustToLowercase name ≠ "phi-3-medium" →
      ∃ m : AIModel, AIModel.new name = Except.ok m ∧
        m.model_type = AIModelType.Custom (rustToLowercase name)) := by
  constructor
  · intro name
    exact ⟨_, rfl⟩
  · intro name h1 h2 h3
    refine ⟨_, rfl, ?_⟩
    simp only [AIModel.new]
    rw [if_neg h1, if_neg h2, if_neg h3]

/-- Witness for the amended C2 at the concrete input "My-Model". -/
theorem new_unrecognized_lowercase_witness :
    ∃ m : AIModel, AIModel.new "My-Model" = Except.ok m ∧
      m.model_type = AIModelType.Custom "my-model" := by
  have h := new_unrecognized_lowercase.2 "My-Model" (by decide) (by decide) (by decide)
  have e : rustToLowercase "My-Model" = "my-model" := by decide
  rw [e] at h
  exact h

/-- Claim C3: with no engine configured, `POST /api/generate` builds its
reply unconditionally (never an error) with zero tokens, zero elapsed
time, the prompt and the framework embedded verbatim in the code text,
and the engine slot left empty. -/
theorem handle_generate_no_engine_placeholder (request : GenerateRequest) (elapsed_ms : Nat) :
    (handle_generate request none elapsed_ms).1.tokens = 0 ∧
    (handle_generate request none elapsed_ms).1.time_ms = 0 ∧
    rustContains (handle_generate request none elapsed_ms).1.code request.prompt = true ∧
    rustContains (handle_generate request none elapsed_ms).1.code request.framework = true ∧
    (handle_generate request none elapsed_ms).2 = none := by
  refine ⟨rfl, rfl, ?_, ?_, rfl⟩
  · apply rustContains_of_data _ _ ("// AI not enabled\n// Request: ").data
      (("\n// Framework: ").data ++ request.framework.data)
    simp [handle_generate, string_data_append, List.append_assoc]
  · apply rustContains_of_data _ _
      (("// AI not enabled\n// Request: ").data ++ request.prompt.data ++
        ("\n// Framework: ").data) []
    simp [handle_generate, string_data_append, List.append_assoc]

/-- Claim C7: `load` is idempotent — after one `load` the engine is
loaded, and a second `load` returns the same state unchanged through
the immediate already-loaded fast path, performing no load step. -/
theorem load_idempotent (m : AIModel) :
    (m.load.1).loaded = true ∧
    (m.load.1).load = (m.load.1, LoadStep.alreadyLoaded) := by
  unfold AIModel.load
  by_cases h : m.loaded <;> simp [h]

/-- Claim C4: with a phi-3 engine configured, the inbound generate
frame for a login form produces exactly two frames in order — the
`generating` frame, then the `generated` frame carrying the login
placeholder (the classification keys on the substring "login",
case-insensitively, before "card") — and the engine ends loaded. -/
theorem ws_login_two_frames (m : AIModel) (elapsed_ms : Nat)
    (h : m.model_type = AIModelType.Phi3Mini ∨ m.model_type = AIModelType.Phi3Small ∨
         m.model_type = AIModelType.Phi3Medium) :
    handle_websocket_message (Except.ok login_generate_msg) (some m) elapsed_ms =
      ([WsFrame.generating "AI is generating code...",
        WsFrame.generated "// Generated login component placeholder" 500 elapsed_ms
          (AIModelType.toString m.model_type)],
       some (m.load.1)) := by
  rw [login_msg_dispatch]
  rcases h with h | h | h <;>
    simp [handle_ws_generate, AIModel.generate, load_model_type, h,
          AIModel.generate_phi3_response, login_prompt_contains, min_2000_500,
          AIModelType.toString]

/-- Witness for C4 at a concrete fresh phi-3-mini engine. -/
theorem ws_login_two_frames_witness :
    handle_websocket_message (Except.ok login_generate_msg) (some phi3_test_engine) 7 =
      ([WsFrame.generating "AI is generating code...",
        WsFrame.generated "// Generated login component placeholder" 500 7
          (AIModelType.toString phi3_test_engine.model_type)],
       some (phi3_test_engine.load.1)) :=
  ws_login_two_frames phi3_test_engine 7 (Or.inl rfl)

/-- Claim C5: an inbound frame parsing to a JSON object whose type
field is a string other than "generate" yields exactly one error frame
naming that type, leaves the engine state untouched, and the receive
loop continues with the remaining events. -/
theorem ws_unknown_type_error_continues (data : Json) (t : String)
    (engine : Option AIModel) (elapsed_ms : Nat) (rest : List WsEvent)
    (hget : (data.get "type").bind Json.asStr = some t) (hne : t ≠ "generate") :
    handle_websocket_message (Except.ok data) engine elapsed_ms =
      ([WsFrame.error ("Unknown message type: " ++ t)], engine) ∧
    ws_receive_loop (WsEvent.frame (Except.ok data) elapsed_ms :: rest) engine =
      (WsFrame.error ("Unknown message type: " ++ t) :: (ws_receive_loop rest engine).1,
       (ws_receive_loop rest engine).2) := by
  have h1 : handle_websocket_message (Except.ok data) engine elapsed_ms =
      ([WsFrame.error ("Unknown message type: " ++ t)], engine) := by
    simp [handle_websocket_message, hget, hne]
  exact ⟨h1, by simp [ws_receive_loop, h1]⟩

/-- Witness for C5 at the concrete ping message with one trailing event. -/
theorem ws_unknown_type_error_continues_witness :
    handle_websocket_message (Except.ok ping_msg) none 0 =
      ([WsFrame.error ("Unknown message type: " ++ "ping")], none) ∧
    ws_receive_loop [WsEvent.frame (Except.ok ping_msg) 0, WsEvent.nonText] none =
      (WsFrame.error ("Unknown message type: " ++ "ping") ::
        (ws_receive_loop [WsEvent.nonText] none).1,
       (ws_receive_loop [WsEvent.nonText] none).2) :=
  ws_unknown_type_error_continues ping_msg "ping" none 0 [WsEvent.nonText] rfl (by decide)

/-- Claim C6: an inbound text frame that fails JSON parsing yields
exactly one error frame carrying the parse-failure indicator and the
parser's detail, leaves the engine state untouched, and the receive
loop continues with the remaining events. -/
theorem ws_invalid_json_error_continues (detail : String) (engine : Option AIModel)
    (elapsed_ms : Nat) (rest : List WsEvent) :
    handle_websocket_message (Except.error detail) engine elapsed_ms =
      ([WsFrame.error ("Invalid JSON: " ++ detail)], engine) ∧
    ws_receive_loop (WsEvent.frame (Except.error detail) elapsed_ms :: rest) engine =
      (WsFrame.error ("Invalid JSON: " ++ detail) :: (ws_receive_loop rest engine).1,
       (ws_receive_loop rest engine).2) := by
  have h1 : handle_websocket_message (Except.error detail) engine elapsed_ms =
      ([WsFrame.error ("Invalid JSON: " ++ detail)], engine) := rfl
  exact ⟨h1, by simp [ws_receive_loop, h1]⟩

/-- Claim C8: the loaded flag transitions one way — `load` establishes
it, `generate` leaves the engine loaded, no operation resets it — and
`generate` factors through the loaded state: its entire behavior on any
engine equals its behavior on that engine after `load`, so the
classification and formatting step only ever runs against a loaded
engine. -/
theorem loaded_one_way_invariant (m : AIModel) (prompt : String) (max_tokens elapsed_ms : Nat) :
    (m.load.1).loaded = true ∧
    ((m.generate prompt max_tokens elapsed_ms).1).loaded = true ∧
    m.generate prompt max_tokens elapsed_ms = (m.load.1).generate prompt max_tokens elapsed_ms := by
  refine ⟨load_loaded m, ?_, ?_⟩
  · simp only [AIModel.generate]
    exact load_loaded m
  · simp only [AIModel.generate, load_load]

/-- Claim C9, counterexample: with every send failing (oracle constantly
false), a session that receives two unknown-type frames still attempts
both error sends — the second event is processed even though the first
send already failed, so a send failure does not tear the session down. -/
theorem send_failure_counterexample :
    (ws_receive_loop_sends (fun _ => false)
        [WsEvent.frame (Except.ok ping_msg) 0, WsEvent.frame (Except.ok ping_msg) 0]
        none 0).1 =
      [(WsFrame.error ("Unknown message type: " ++ "ping"), false),
       (WsFrame.error ("Unknown message type: " ++ "ping"), false)] := by decide

/-- Claim C9, amended: outbound send failures are ignored
(fire-and-forget): the frames a session attempts to send and its final
engine state are identical under every delivery oracle, so teardown is
triggered only by a receive-side transport error or end of stream,
never by a failed send. -/
theorem send_failure_ignored (sendOk : Nat → Bool) (events : List WsEvent)
    (engine : Option AIModel) (k : Nat) :
    (ws_receive_loop_sends sendOk events engine k).1.map Prod.fst =
      (ws_receive_loop events engine).1 ∧
    (ws_receive_loop_sends sendOk events engine k).2 = (ws_receive_loop events engine).2 := by
  induction events generalizing engine k with
  | nil => exact ⟨rfl, rfl⟩
  | cons ev rest ih =>
    cases ev with
    | frame parsed elapsed_ms =>
      have h := ih (handle_websocket_message parsed engine elapsed_ms).2
        (k + (handle_websocket_message parsed engine elapsed_ms).1.length)
      simp [ws_receive_loop_sends, ws_receive_loop, tagSends_map_fst, h.1, h.2]
    | nonText => exact ih engine k
    | transportFailure e => exact ⟨rfl, rfl⟩

/-- Claim C10: an engine constructed from an unrecognized (custom)
model name answers every prompt — login and card prompts included —
with the generic template followed by the prompt verbatim, never a
keyword-specific placeholder. -/
theorem custom_model_generic_response (name prompt : String) (max_tokens elapsed_ms : Nat)
    (m : AIModel)
    (h1 : rustToLowercase name ≠ "phi-3-mini")
    (h2 : rustToLowercase name ≠ "phi-3-small")
    (h3 : rustToLowercase name ≠ "phi-3-medium")
    (hm : AIModel.new name = Except.ok m) :
    ((m.generate prompt max_tokens elapsed_ms).2).content =
      "// Generated code based on prompt: " ++ prompt := by
  have hmt : m.model_type = AIModelType.Custom (rustToLowercase name) := by
    simp only [AIModel.new, Except.ok.injEq] at hm
    rw [← hm]
    rw [if_neg h1, if_neg h2, if_neg h3]
  simp [AIModel.generate, load_model_type, hmt, AIModel.generate_generic_response]

/-- Witness for C10: a custom engine given a prompt containing both
"login" and "card" still answers with the generic template. -/
theorem custom_model_generic_response_witness :
    ((custom_test_engine.generate "make a login card" 2000 3).2).content =
      "// Generated code based on prompt: " ++ "make a login card" :=
  custom_model_generic_response "my-model" "make a login card" 2000 3 custom_test_engine
    (by decide) (by decide) (by decide) rfl
